import Mathlib

/-!
Verification of the Bluestar Smart AC integration (`custom_components/bluestar_ac`).

This file gives a shallow embedding, in Lean, of the device-control transport
layer of the integration: credential extraction from the login response
(`api.py`, `BluestarCredentialExtractor`), the login retry loop
(`api.py`, `BluestarAPI.login` and `BluestarAPI._initialize_mqtt_client`),
the MQTT client connection/reconnection/subscription state machine
(`api.py`, `BluestarMQTTClient`), the publish wire normalization
(`api.py`, `BluestarMQTTClient.publish`), and the coordinator's state cache
with its optimistic and inbound merges (`coordinator.py`,
`BluestarDataUpdateCoordinator`).

Python dictionaries are modelled as association lists with the
replace-in-place-else-append assignment of `dict.__setitem__`; Python's
dynamically typed JSON values are modelled by the inductive `PyVal`
(dictionary values nested inside another value are restricted to primitives,
which covers every payload shape the integration builds or consumes);
Python floats that the integration formats with one decimal place are
modelled exactly as a count of tenths.  Strings are treated as sequences of
unicode scalar values; the byte-level `base64` and UTF-8 codecs are embedded
for the ASCII range in which all broker credentials live.
-/

set_option autoImplicit false

namespace Bluestar

/-! ## Python value model -/

/-- A primitive JSON value: the values that occur inside a nested object
such as the structured `mode` object `\x7b"value": 2, "stemp": "24.0"\x7d`. -/
inductive PPrim where
  | int (i : Int)
  | str (s : String)
  deriving DecidableEq, Repr

/-- A dynamically typed Python/JSON value as handled by the integration:
booleans, integers, floats (restricted to exact tenths, which is the
precision the integration prints), strings and one level of nested object. -/
inductive PyVal where
  | pbool (b : Bool)
  | pint (i : Int)
  | pfloat (tenths : Int)
  | pstr (s : String)
  | pdict (fields : List (String × PPrim))
  deriving DecidableEq, Repr

/-- Embed a primitive value into `PyVal`. -/
def PPrim.toVal : PPrim → PyVal
  | .int i => .pint i
  | .str s => .pstr s

/-- A Python dictionary with `PyVal` values, in insertion order. -/
abbrev Dict := List (String × PyVal)

/-- `d[k]` read access: first binding of the key, as Python dicts hold each
key once. -/
def dGet {α : Type} (k : String) : List (String × α) → Option α
  | [] => none
  | (k0, v0) :: rest => if k0 = k then some v0 else dGet k rest

/-- `d[k] = v` assignment: replace the binding in place when the key exists,
else append it, matching Python's insertion-order-preserving dictionaries. -/
def dSet {α : Type} (k : String) (v : α) : List (String × α) → List (String × α)
  | [] => [(k, v)]
  | (k0, v0) :: rest => if k0 = k then (k, v) :: rest else (k0, v0) :: dSet k v rest

/-- Membership test `k in d`. -/
def dMem {α : Type} (k : String) (d : List (String × α)) : Bool := (dGet k d).isSome

/-- Python `int(v)` as used on payload fields; `none` models the `TypeError`
or `ValueError` that a non-numeric value raises. -/
def pyInt : PyVal → Option Int
  | .pint i => some i
  | .pbool b => some (if b then 1 else 0)
  | .pfloat t => some (t / 10)
  | .pstr s => s.toInt?
  | .pdict _ => none

/-- Python `v == n` for an integer literal `n`; `True == 1` holds in Python,
while strings and dicts never equal an integer. -/
def pyEqInt (v : PyVal) (n : Int) : Bool :=
  match v with
  | .pint i => i = n
  | .pbool b => (if b then (1 : Int) else 0) = n
  | .pfloat t => t = n * 10
  | .pstr _ => false
  | .pdict _ => false

/-- Python `v != 0`. -/
def pyNe0 (v : PyVal) : Bool := !(pyEqInt v 0)

/-- The apostrophe character that Python's `repr` puts around strings. -/
def quoteChar : Char := Char.ofNat 39

/-- Render a primitive as Python `repr` does inside a dict display. -/
def pyReprPrim : PPrim → String
  | .int i => toString i
  | .str s => String.singleton quoteChar ++ s ++ String.singleton quoteChar

/-- Python `str(v)`: numbers print bare, floats with their tenths digit,
booleans as `True`/`False`, strings verbatim, dicts as a brace display. -/
def pyStr : PyVal → String
  | .pbool b => if b then "True" else "False"
  | .pint i => toString i
  | .pfloat t =>
      if t < 0 then "-" ++ toString ((-t) / 10) ++ "." ++ toString ((-t) % 10)
      else toString (t / 10) ++ "." ++ toString (t % 10)
  | .pstr s => s
  | .pdict fields =>
      "\x7b" ++ String.intercalate ", "
        (fields.map fun p => pyReprPrim (.str p.1) ++ ": " ++ pyReprPrim p.2) ++ "\x7d"

/-- Python `f"\x7bfloat(v):.1f\x7d"` on a value already known numeric,
with floats carried as exact tenths. -/
def pyFormat1f : PyVal → Option String
  | .pint i => some (pyStr (.pfloat (i * 10)))
  | .pfloat t => some (pyStr (.pfloat t))
  | .pbool b => some (pyStr (.pfloat (if b then 10 else 0)))
  | _ => none

/-! ## Base64 and ASCII (the codecs behind `base64.b64decode(mi).decode("utf-8")`) -/

/-- The standard base64 alphabet. -/
def b64Alphabet : List Char :=
  "ABCDEFGHIJKLMNOPQRSTUVWXYZabcdefghijklmnopqrstuvwxyz0123456789+/".toList

/-- The 6-bit value of a base64 alphabet character. -/
def b64CharVal (c : Char) : Option Nat := b64Alphabet.indexOf? c

/-- The alphabet character of a 6-bit value. -/
def b64Char (n : Nat) : Char := b64Alphabet.getD n 'A'

/-- Base64-encode a byte sequence. -/
def b64encodeBytes : List Nat → List Char
  | [] => []
  | [a] => [b64Char (a / 4), b64Char (a % 4 * 16), '=', '=']
  | [a, b] => [b64Char (a / 4), b64Char (a % 4 * 16 + b / 16), b64Char (b % 16 * 4), '=']
  | a :: b :: c :: rest =>
      b64Char (a / 4) :: b64Char (a % 4 * 16 + b / 16) ::
      b64Char (b % 16 * 4 + c / 64) :: b64Char (c % 64) :: b64encodeBytes rest

/-- Base64-encode an ASCII string. -/
def b64encode (s : String) : String :=
  String.mk (b64encodeBytes (s.toList.map Char.toNat))

/-- Decode a padded base64 character stream into bytes; `none` models the
`binascii.Error` raised on malformed input. -/
def b64decodeGroups : List Char → Option (List Nat)
  | [] => some []
  | c1 :: c2 :: c3 :: c4 :: rest =>
      match b64CharVal c1, b64CharVal c2 with
      | some v1, some v2 =>
          if c3 = '=' then
            if c4 = '=' ∧ rest = [] then some [v1 * 4 + v2 / 16] else none
          else
            match b64CharVal c3 with
            | some v3 =>
                if c4 = '=' then
                  if rest = [] then some [v1 * 4 + v2 / 16, v2 % 16 * 16 + v3 / 4] else none
                else
                  match b64CharVal c4 with
                  | some v4 =>
                      (b64decodeGroups rest).map fun tail =>
                        (v1 * 4 + v2 / 16) :: (v2 % 16 * 16 + v3 / 4) ::
                        (v3 % 4 * 64 + v4) :: tail
                  | none => none
            | none => none
      | _, _ => none
  | _ => none

/-- `base64.b64decode` with the default lax validation: characters outside
the alphabet and padding are discarded before the length check. -/
def b64decodeBytes (s : String) : Option (List Nat) :=
  b64decodeGroups (s.toList.filter fun c => (b64CharVal c).isSome ∨ c = '=')

/-- `base64.b64decode(s).decode("utf-8")`, for the ASCII range: any byte
at or above 128 is treated as a decode failure (the credential strings the
vendor emits are ASCII). -/
def b64decodeAscii (s : String) : Option String :=
  (b64decodeBytes s).bind fun bytes =>
    if bytes.all (· < 128) then some (String.mk (bytes.map Char.ofNat)) else none

/-! ## Credential extraction (`api.py` 46-107, `BluestarCredentialExtractor`) -/

/-- The part of the vendor login response the extractor reads: the base64
`mi` field, the top-level `session` field and the optional `user.id`. -/
structure LoginResponse where
  mi : Option String
  session : Option String
  userId : Option String
  deriving DecidableEq, Repr

/-- The credential dictionary `extract_credentials` builds. -/
structure Credentials where
  endpoint : String
  access_key : String
  secret_key : String
  session_id : Option String
  session_token : Option String
  user_id : Option String
  raw : String
  deriving DecidableEq, Repr

/-- Scanner for `pySplit`: emit the accumulated segment when the separator
occurs at the head, else shift one character; the fuel argument (seeded with
the string length) makes the recursion structural, and every step consumes
at least one character, so the fuel never runs out on the seeded calls. -/
def pySplitAux (sep : List Char) : Nat → List Char → List Char → List (List Char)
  | 0, s, acc => [acc.reverse ++ s]
  | fuel + 1, s, acc =>
      match s with
      | [] => [acc.reverse]
      | c :: rest =>
          if sep ≠ [] ∧ sep.isPrefixOf s then
            acc.reverse :: pySplitAux sep fuel (s.drop sep.length) []
          else pySplitAux sep fuel rest (c :: acc)

/-- Python `s.split(sep)` for a non-empty separator. -/
def pySplit (s sep : String) : List String :=
  (pySplitAux sep.toList s.toList.length s.toList []).map fun l => String.mk l

/-- Python `pat in s`: at least one occurrence, i.e. the split has at least
two segments. -/
def containsSubstr (s pat : String) : Bool := (pySplit s pat).length ≥ 2

/-- Embedding of `BluestarCredentialExtractor.extract_credentials`
(`api.py` 52-95): reject an absent or falsy `mi`, base64-decode it, split on
`::` when present else on `:`, require at least three parts, and read the
segments positionally; the session id comes from the top-level `session`
field and the user id from `user.id`.  Every failure surfaces as the
`BluestarAPIError` the method raises. -/
def extract_credentials (r : LoginResponse) : Except String Credentials :=
  match r.mi with
  | none => .error "No mi field in login response"
  | some mi =>
      if mi = "" then .error "No mi field in login response"
      else
        match b64decodeAscii mi with
        | none => .error "Failed to extract credentials: invalid base64"
        | some decoded =>
            let parts :=
              if containsSubstr decoded "::" then pySplit decoded "::"
              else pySplit decoded ":"
            match parts with
            | p0 :: p1 :: p2 :: rest =>
                .ok { endpoint := p0, access_key := p1, secret_key := p2,
                      session_id := r.session, session_token := rest.head?,
                      user_id := r.userId, raw := mi }
            | _ => .error "Invalid credential format. Expected at least 3 parts"

/-- The failure condition the specification states for `extract`: field
absent, not valid base64, or fewer than three delimiter-separated segments.
Modelled from the spec's words for comparison with `extract_credentials`. -/
def specMalformed (r : LoginResponse) : Prop :=
  r.mi = none ∨
    ∃ mi, r.mi = some mi ∧
      (b64decodeAscii mi = none ∨
        ∃ decoded, b64decodeAscii mi = some decoded ∧
          (if containsSubstr decoded "::" then pySplit decoded "::"
           else pySplit decoded ":").length < 3)

/-! ## Login retry loop (`api.py` 630-743, `BluestarAPI.login` and
`BluestarAPI._initialize_mqtt_client`) -/

/-- What one POST to `/auth/login` comes back with: an HTTP response with a
status code, a flag for whether its body parses as JSON and the parsed body,
or an `aiohttp.ClientError` network failure. -/
inductive AttemptOutcome where
  | response (status : Nat) (jsonValid : Bool) (data : LoginResponse)
  | netError
  deriving DecidableEq, Repr

/-- A raised `BluestarAPIError`: message plus optional HTTP status. -/
structure BError where
  message : String
  status_code : Option Nat
  deriving DecidableEq, Repr

/-- The broker-side environment `login` runs against: whether paho-mqtt is
importable and whether the broker WebSocket handshake succeeds. -/
structure BrokerEnv where
  mqttAvailable : Bool
  connectOk : Bool
  deriving DecidableEq, Repr

/-- Embedding of `BluestarAPI._initialize_mqtt_client` (`api.py` 709-743):
bail out returning `False` when MQTT support is absent; extract credentials
(any `BluestarAPIError` is caught by the outer handler, which returns
`False`); construct the client and attempt `connect()`, whose boolean result
is returned, with any exception again caught and turned into `False`.
The `Except` layer records that the method can raise; the proofs show the
error constructor is never produced. -/
def initialize_mqtt_client (env : BrokerEnv) (data : LoginResponse) :
    Except String Bool :=
  if ¬env.mqttAvailable then .ok false
  else
    match extract_credentials data with
    | .error _ => .ok false
    | .ok _creds => .ok env.connectOk

instance {ε α : Type} [DecidableEq ε] [DecidableEq α] : DecidableEq (Except ε α) :=
  fun a b =>
    match a, b with
    | .error x, .error y =>
        if h : x = y then isTrue (by subst h; rfl)
        else isFalse (by intro hc; cases hc; exact h rfl)
    | .error _, .ok _ => isFalse (by intro hc; cases hc)
    | .ok _, .error _ => isFalse (by intro hc; cases hc)
    | .ok x, .ok y =>
        if h : x = y then isTrue (by subst h; rfl)
        else isFalse (by intro hc; cases hc; exact h rfl)

/-- The outcome of one `login()` call: the returned data or raised error,
the `asyncio.sleep(2 ** attempt)` backoff waits executed between attempts
(in seconds), the number of POST attempts made, and the result of
`_initialize_mqtt_client` when the 200 branch reached it. -/
structure LoginResult where
  outcome : Except BError LoginResponse
  sleeps : List Nat
  attempts : Nat
  mqttInit : Option Bool
  deriving DecidableEq, Repr

/-- `max_retries` in `login`. -/
def maxRetries : Nat := 3

/-- Embedding of the retry loop of `BluestarAPI.login` (`api.py` 646-707),
indexed by the current `attempt` and the remaining loop iterations `fuel`
(`maxRetries - attempt` at the top call).  `o` supplies the outcome of each
POST.  A 200 with valid JSON stores the session token, runs
`_initialize_mqtt_client` and returns the data; 403 and 401 raise at once;
502 sleeps `2 ** attempt` seconds and retries while attempts remain, then
raises; any other status raises at once; a network error sleeps and retries
while attempts remain, else breaks out and the trailing
`raise BluestarAPIError("Login failed with all phone number formats")`
fires. -/
def loginFrom (env : BrokerEnv) (o : Nat → AttemptOutcome) :
    Nat → Nat → LoginResult
  | _, 0 =>
      { outcome := .error ⟨"Login failed with all phone number formats", none⟩,
        sleeps := [], attempts := 0, mqttInit := none }
  | attempt, fuel + 1 =>
      match o attempt with
      | .response status jsonValid data =>
          if status = 200 then
            if jsonValid then
              match initialize_mqtt_client env data with
              | .error e =>
                  { outcome := .error ⟨e, none⟩, sleeps := [], attempts := 1,
                    mqttInit := none }
              | .ok b =>
                  { outcome := .ok data, sleeps := [], attempts := 1,
                    mqttInit := some b }
            else
              { outcome := .error ⟨"Invalid JSON response from server", none⟩,
                sleeps := [], attempts := 1, mqttInit := none }
          else if status = 403 then
            { outcome := .error ⟨"Access forbidden - Account may be locked", some 403⟩,
              sleeps := [], attempts := 1, mqttInit := none }
          else if status = 401 then
            { outcome := .error ⟨"Invalid credentials", some 401⟩,
              sleeps := [], attempts := 1, mqttInit := none }
          else if status = 502 then
            if attempt < maxRetries - 1 then
              let r := loginFrom env o (attempt + 1) fuel
              { r with sleeps := 2 ^ attempt :: r.sleeps, attempts := r.attempts + 1 }
            else
              { outcome := .error ⟨"API temporarily unavailable (502 error)", some 502⟩,
                sleeps := [], attempts := 1, mqttInit := none }
          else
            { outcome := .error ⟨"Unexpected response", some status⟩,
              sleeps := [], attempts := 1, mqttInit := none }
      | .netError =>
          if attempt < maxRetries - 1 then
            let r := loginFrom env o (attempt + 1) fuel
            { r with sleeps := 2 ^ attempt :: r.sleeps, attempts := r.attempts + 1 }
          else
            { outcome := .error ⟨"Login failed with all phone number formats", none⟩,
              sleeps := [], attempts := 1, mqttInit := none }

/-- `BluestarAPI.login`: the retry loop entered at attempt 0 with
`max_retries = 3` iterations available. -/
def login (env : BrokerEnv) (o : Nat → AttemptOutcome) : LoginResult :=
  loginFrom env o 0 maxRetries

/-- An attempt outcome that the login loop retries on: an upstream 502 or a
network-transport error. -/
def retryable : AttemptOutcome → Prop
  | .response status _ _ => status = 502
  | .netError => True

instance : DecidablePred retryable := fun
  | .response _ _ _ => by unfold retryable; infer_instance
  | .netError => by unfold retryable; infer_instance

/-! ## MQTT client state machine (`api.py` 177-576, `BluestarMQTTClient`) -/

/-- The fields of `BluestarMQTTClient` that the connection logic reads and
writes: `is_connected`, the `_reconnecting` guard, whether `self.client` has
been created, and the `subscribed_devices` set (modelled as a list without
duplicates, in insertion order). -/
structure MqttState where
  is_connected : Bool
  reconnecting : Bool
  clientInit : Bool
  subscribed_devices : List String
  deriving DecidableEq, Repr

/-- A freshly constructed client (`__init__`, `api.py` 180-218). -/
def initialMqttState : MqttState :=
  { is_connected := false, reconnecting := false, clientInit := false,
    subscribed_devices := [] }

/-- Python `pattern % device_id` for the single-placeholder topic patterns. -/
def topicFmt (pattern id : String) : String :=
  String.intercalate id (pySplit pattern "%s")

/-- `SUB_STATE_REPORTED_TOPIC_NAME` (`api.py` 212). -/
def SUB_STATE_REPORTED_TOPIC_NAME : String := "things/%s/state/reported"

/-- `PUB_STATE_UPDATE_TOPIC_NAME` (`api.py` 211). -/
def PUB_STATE_UPDATE_TOPIC_NAME : String := "$aws/things/%s/shadow/update"

/-- `SRC_KEY` and `SRC_VALUE` (`api.py` 213-214). -/
def SRC_KEY : String := "src"

/-- The fixed source marker the integration stamps on every command. -/
def SRC_VALUE : String := "anmq"

/-- `set.add`: append when absent. -/
def addId (l : List String) (id : String) : List String :=
  if id ∈ l then l else l ++ [id]

/-- Embedding of `connect` (`api.py` 220-320) at the level of the modelled
fields: the client object is created (so `self.client` is set) whether or
not the handshake succeeds; `handshakeOk` abstracts whether `_on_connect`
fires with `rc == 0` within the 10 s poll window.  On timeout the method
stops the loop, disconnects and reports `False`. -/
def connectAttempt (st : MqttState) (handshakeOk : Bool) : MqttState × Bool :=
  let st1 := { st with clientInit := true }
  if handshakeOk then ({ st1 with is_connected := true }, true)
  else ({ st1 with is_connected := false }, false)

/-- The body of `subscribe_to_device` after its `ensure_connected` guard
(`api.py` 460-476): fail when `self.client` is unset, otherwise subscribe to
the single state-report topic; on a success ack record the device id in
`subscribed_devices`.  The third component lists the topic filters passed to
`client.subscribe` on the wire. -/
def subscribeCore (subAck : String → Bool) (id : String) (st : MqttState) :
    MqttState × Bool × List String :=
  if ¬st.clientInit then (st, false, [])
  else
    let topic := topicFmt SUB_STATE_REPORTED_TOPIC_NAME id
    if subAck id then
      ({ st with subscribed_devices := addId st.subscribed_devices id }, true, [topic])
    else (st, false, [topic])

/-- The resubscription loop of `_reconnect` (`api.py` 427-428): one
`subscribe_to_device` per previously subscribed id; since the connection
has just succeeded, `ensure_connected` inside each call returns at once and
the call reduces to `subscribeCore` (proved below as
`subscribe_connected_eq_core`). -/
def resubscribeAll (subAck : String → Bool) (st : MqttState) :
    MqttState × List String :=
  st.subscribed_devices.foldl
    (fun acc id =>
      let r := subscribeCore subAck id acc.1
      (r.1, acc.2 ++ r.2.2))
    (st, [])

/-- What one `_reconnect` call did: the resulting client state, its return
value, the `asyncio.sleep` backoff waits executed before the connect attempt
was issued (in seconds), and the topic filters resubscribed on success. -/
structure ReconnectResult where
  st : MqttState
  success : Bool
  backoffWaits : List Nat
  wireSubs : List String
  deriving DecidableEq, Repr

/-- Embedding of `_reconnect` (`api.py` 404-435): bail out when another
reconnection is in flight; set the guard, clean up the previous client
(no modelled field changes), call `connect()` immediately — the source
executes no sleep between a failed attempt and the next, so `backoffWaits`
is `[]` — resubscribe to every previously subscribed device on success, and
clear the guard. -/
def reconnect (st : MqttState) (handshakeOk : Bool) (subAck : String → Bool) :
    ReconnectResult :=
  if st.reconnecting then ⟨st, false, [], []⟩
  else
    let st1 := { st with reconnecting := true }
    let (st2, success) := connectAttempt st1 handshakeOk
    if success then
      let (st3, subs) := resubscribeAll subAck st2
      ⟨{ st3 with reconnecting := false }, true, [], subs⟩
    else ⟨{ st2 with reconnecting := false }, false, [], []⟩

/-- Embedding of `ensure_connected` (`api.py` 437-451): return at once when
connected; start a reconnect when none is in flight; otherwise poll for the
in-flight attempt and report the connection flag (in this sequential model
no other task runs, so the flag is returned as-is).  The third component
carries the backoff waits of the reconnect path. -/
def ensure_connected (st : MqttState) (handshakeOk : Bool)
    (subAck : String → Bool) : MqttState × Bool × List Nat :=
  if st.is_connected then (st, true, [])
  else if ¬st.reconnecting then
    let r := reconnect st handshakeOk subAck
    (r.st, r.success, r.backoffWaits)
  else (st, st.is_connected, [])

/-- Embedding of `subscribe_to_device` (`api.py` 453-476): ensure the
connection, then run the subscription body.  The third component lists the
topic filters passed to `client.subscribe`. -/
def subscribe_to_device (st : MqttState) (handshakeOk : Bool)
    (subAck : String → Bool) (id : String) : MqttState × Bool × List String :=
  let e := ensure_connected st handshakeOk subAck
  if ¬e.2.1 then (e.1, false, [])
  else subscribeCore subAck id e.1

/-- Drive one `_reconnect` per listed handshake outcome, collecting the
backoff waits each attempt executed before issuing its connect. -/
def reconnectRun (subAck : String → Bool) :
    MqttState → List Bool → MqttState × List (List Nat)
  | st, [] => (st, [])
  | st, ok :: rest =>
      let r := reconnect st ok subAck
      let (stF, waits) := reconnectRun subAck r.st rest
      (stF, r.backoffWaits :: waits)

/-- Modelled from the spec: the reconnect backoff the specification claims,
`min(30, 2**N)` seconds before attempt `N+1` after `N` consecutive
failures.  No corresponding computation exists in the source. -/
def specBackoffWait (n : Nat) : Nat := min 30 (2 ^ n)

/-! ## Publish wire normalization (`api.py` 478-567, `BluestarMQTTClient.publish`) -/

/-- The structured mode object built when `mode` arrives as a bare value
(`api.py` 497-511): `\x7b"value": int(mode)\x7d` plus `fspd` and a
one-decimal-place `stemp` when those companions are present in the payload;
`none` models an exception from `int()`/`float()`, which the surrounding
handler turns into a failed publish. -/
def modeObjSimple (cp : Dict) (mv : PyVal) : Option (List (String × PPrim)) := do
  let v ← pyInt mv
  let mo : List (String × PPrim) := [("value", .int v)]
  let mo ←
    match dGet "fspd" cp with
    | some fv => do
        let f ← pyInt fv
        pure (dSet "fspd" (PPrim.int f) mo)
    | none => pure mo
  match dGet "stemp" cp with
  | some sv =>
      match sv with
      | .pint _ | .pfloat _ | .pbool _ => do
          let s ← pyFormat1f sv
          pure (dSet "stemp" (PPrim.str s) mo)
      | _ => pure (dSet "stemp" (PPrim.str (pyStr sv)) mo)
  | none => pure mo

/-- One iteration of the `for key, value in control_payload.items()` loop
(`api.py` 520-538) over the accumulating `formatted_payload`. -/
def publishLoopStep (cp : Dict) (fp : Dict) (kv : String × PyVal) : Option Dict :=
  let key := kv.1
  let value := kv.2
  if key = "mode" then some fp
  else if key = "stemp" then
    if ¬dMem "mode" cp then
      match value with
      | .pint _ | .pfloat _ | .pbool _ =>
          (pyFormat1f value).map fun s => dSet key (.pstr s) fp
      | _ => some (dSet key (.pstr (pyStr value)) fp)
    else some fp
  else if key = "fspd" then
    if ¬dMem "mode" cp then (pyInt value).map fun i => dSet key (.pint i) fp
    else some fp
  else if key = "pow" ∨ key = "vswing" ∨ key = "hswing" ∨ key = "display" then
    (pyInt value).map fun i => dSet key (.pint i) fp
  else if key = "ts" ∨ key = "src" then some fp
  else some (dSet key value fp)

/-- The mode-or-fspd head of the normalization (`api.py` 490-517) followed
by the key loop over the whole payload. -/
def publishBase (cp : Dict) : Option Dict := do
  let fp : Dict := []
  let fp ←
    match dGet "mode" cp with
    | some mv => do
        let mo ←
          match mv with
          | .pdict d =>
              if (dGet "value" d).isSome then some d else modeObjSimple cp mv
          | _ => modeObjSimple cp mv
        pure (dSet "mode" (.pdict mo) fp)
    | none =>
        match dGet "fspd" cp with
        | some fv => (pyInt fv).map fun i => dSet "fspd" (.pint i) fp
        | none => pure fp
  cp.foldlM (publishLoopStep cp) fp

/-- The trailing stamps of the normalization (`api.py` 540-543): the fixed
`src` marker, then the millisecond timestamp when none is present. -/
def publishStamp (fp : Dict) (now : Int) : Dict :=
  let fp := dSet SRC_KEY (.pstr SRC_VALUE) fp
  if ¬dMem "ts" fp then dSet "ts" (.pint now) fp else fp

/-- Embedding of the payload normalization in `publish` (`api.py` 486-549):
build the mode object (a structured `mode` carrying a `value` key is copied
verbatim; a bare one is converted with its companions), or a bare `fspd`
when no mode is given; run the key loop; stamp the fixed `src` marker; and
add the millisecond timestamp `now` when the payload does not already carry
one.  `none` models an exception inside the `try`, which makes `publish`
return `False`. -/
def publishFormat (cp : Dict) (now : Int) : Option Dict :=
  (publishBase cp).map fun fp => publishStamp fp now

/-- The message `publish` hands to `client.publish` (`api.py` 545-556): the
normalized payload wrapped in the fixed `\x7b"state": \x7b"desired": ...\x7d\x7d`
envelope, on the device's shadow-update topic. -/
structure PublishMessage where
  topic : String
  desired : Dict
  deriving DecidableEq, Repr

/-- Build the published message for a device. -/
def publishMessage (device_id : String) (cp : Dict) (now : Int) :
    Option PublishMessage :=
  (publishFormat cp now).map fun fp =>
    { topic := topicFmt PUB_STATE_UPDATE_TOPIC_NAME device_id, desired := fp }

/-! ## Coordinator state cache (`coordinator.py`, `BluestarDataUpdateCoordinator`) -/

/-- The default state installed for a device before its first MQTT update
(`coordinator.py` 91-109). -/
def defaultState : Dict :=
  [("power", .pbool false), ("mode", .pint 2), ("temperature", .pstr "24"),
   ("current_temp", .pstr "27.5"), ("fan_speed", .pint 2),
   ("vertical_swing", .pint 0), ("horizontal_swing", .pint 0),
   ("display", .pbool true), ("esave", .pint 0), ("turbo", .pint 0),
   ("sleep", .pint 0), ("connected", .pbool false), ("rssi", .pint (-45)),
   ("error", .pint 0), ("source", .pstr "unknown"), ("timestamp", .pint 0)]

/-- One iteration of the optimistic-merge loop in `control_device`
(`coordinator.py` 161-186), mapping one command field onto the cached state
dictionary. -/
def optimisticStep (st : Dict) (kv : String × PyVal) : Dict :=
  let key := kv.1
  let value := kv.2
  if key = "pow" then dSet "power" (.pbool (pyEqInt value 1)) st
  else if key = "mode" then
    match value with
    | .pdict d =>
        match dGet "value" d with
        | some mval =>
            let st := dSet "mode" mval.toVal st
            let st :=
              match dGet "fspd" d with
              | some f => dSet "fan_speed" f.toVal st
              | none => st
            match dGet "stemp" d with
            | some s => dSet "temperature" (.pstr (pyStr s.toVal)) st
            | none => st
        | none => dSet "mode" value st
    | _ => dSet "mode" value st
  else if key = "stemp" then dSet "temperature" (.pstr (pyStr value)) st
  else if key = "fspd" then dSet "fan_speed" value st
  else if key = "vswing" then dSet "vertical_swing" value st
  else if key = "hswing" then dSet "horizontal_swing" value st
  else if key = "display" then dSet "display" (.pbool (pyNe0 value)) st
  else if key = "esave" ∨ key = "turbo" ∨ key = "sleep" then dSet key value st
  else st

/-- The optimistic merge of a whole command dictionary into the cached
state, in the command's insertion order. -/
def applyOptimistic (st : Dict) (cd : Dict) : Dict :=
  cd.foldl optimisticStep st

/-- The cached state expected after optimistically merging the command
`\x7bpow: 1, mode: \x7bvalue: 2, fspd: 7, stemp: "24.0"\x7d\x7d` into the default
state: power on, mode 2, fan speed 7, target temperature `"24.0"`, every
other field untouched. -/
def optimisticMergedState : Dict :=
  [("power", .pbool true), ("mode", .pint 2), ("temperature", .pstr "24.0"),
   ("current_temp", .pstr "27.5"), ("fan_speed", .pint 7),
   ("vertical_swing", .pint 0), ("horizontal_swing", .pint 0),
   ("display", .pbool true), ("esave", .pint 0), ("turbo", .pint 0),
   ("sleep", .pint 0), ("connected", .pbool false), ("rssi", .pint (-45)),
   ("error", .pint 0), ("source", .pstr "unknown"), ("timestamp", .pint 0)]

/-- One cached device entry (`coordinator.py` 87-111): display name and
state dictionary (the `id`, `type` and `raw_device` fields play no role in
the claims). -/
structure DeviceEntry where
  name : String
  state : Dict
  deriving DecidableEq, Repr

/-- The coordinator's device map, `self.data["devices"]`. -/
abbrev DevMap := List (String × DeviceEntry)

/-- Embedding of `control_device` (`coordinator.py` 137-195): `apiOk`
abstracts whether `api.control_device` completed (publish succeeded); on
failure the `BluestarAPIError` is re-raised and the cache and listeners are
untouched; on success, when the device is in the cache, the command is
optimistically merged and the listeners are notified (the boolean). -/
def control_device (data : Option DevMap) (device_id : String) (cd : Dict)
    (apiOk : Bool) : Except String (Option DevMap × Bool) :=
  if ¬apiOk then .error "Control failed"
  else
    match data with
    | none => .ok (none, false)
    | some m =>
        match dGet device_id m with
        | none => .ok (some m, false)
        | some entry =>
            .ok (some (dSet device_id
                  { entry with state := applyOptimistic entry.state cd } m), true)

/-- `if "src_key" in payload: state["dst_key"] = tr(payload["src_key"])`,
the shape of every field update in `_handle_mqtt_message`. -/
def updIf (p : Dict) (srcKey dstKey : String) (tr : PyVal → PyVal)
    (st : Dict) : Dict :=
  match dGet srcKey p with
  | some v => dSet dstKey (tr v) st
  | none => st

/-- The inbound `mode` field: unwrap the `value` key when the field arrives
as a structured object (`coordinator.py` 278-284). -/
def modeTrans (v : PyVal) : PyVal :=
  match v with
  | .pdict d =>
      match dGet "value" d with
      | some pv => pv.toVal
      | none => v
  | _ => v

/-- Embedding of the field mapping of `_handle_mqtt_message`
(`coordinator.py` 273-313): apply each field present in the inbound payload
to the cached state, in source order, then unconditionally mark the device
connected. -/
def handle_state_merge (st : Dict) (p : Dict) : Dict :=
  let st := updIf p "pow" "power" (fun v => .pbool (pyEqInt v 1)) st
  let st := updIf p "mode" "mode" modeTrans st
  let st := updIf p "stemp" "temperature" (fun v => .pstr (pyStr v)) st
  let st := updIf p "ctemp" "current_temp" (fun v => .pstr (pyStr v)) st
  let st := updIf p "fspd" "fan_speed" id st
  let st := updIf p "vswing" "vertical_swing" id st
  let st := updIf p "hswing" "horizontal_swing" id st
  let st := updIf p "display" "display" (fun v => .pbool (pyNe0 v)) st
  let st := updIf p "esave" "esave" id st
  let st := updIf p "turbo" "turbo" id st
  let st := updIf p "sleep" "sleep" id st
  let st := updIf p "rssi" "rssi" id st
  let st := updIf p "err" "error" id st
  let st := updIf p "src" "source" id st
  let st := updIf p "ts" "timestamp" id st
  dSet "connected" (.pbool true) st

/-- Embedding of `_handle_mqtt_message` (`coordinator.py` 254-322): drop the
message when no refresh has populated `self.data` yet or when the device id
is not in the map; otherwise merge into the cached state and schedule the
listener notification (the boolean). -/
def handle_mqtt_message (data : Option DevMap) (device_id : String) (p : Dict) :
    Option DevMap × Bool :=
  match data with
  | none => (none, false)
  | some m =>
      match dGet device_id m with
      | none => (some m, false)
      | some entry =>
          (some (dSet device_id
            { entry with state := handle_state_merge entry.state p } m), true)

/-- One device record from the `GET /things` catalog, already projected to
the fields the coordinator uses: `thing_id` and the resolved display name. -/
structure Thing where
  thing_id : String
  name : String
  deriving DecidableEq, Repr

/-- `self.devices = \x7bdevice["thing_id"]: device for device in things\x7d`
(`coordinator.py` 75): keyed by thing id, later duplicates winning. -/
def devIndex (things : List Thing) : List (String × Thing) :=
  things.foldl (fun acc t => dSet t.thing_id t acc) []

/-- One processed device entry (`coordinator.py` 81-111): keep the existing
MQTT-sourced state when the prior data has a non-empty one (an empty dict is
falsy in Python), else install the defaults. -/
def refreshEntry (prior : Option DevMap) (id : String) (t : Thing) : DeviceEntry :=
  let existing : Dict :=
    match prior with
    | some m =>
        match dGet id m with
        | some e => e.state
        | none => []
    | none => []
  { name := t.name, state := if existing = [] then defaultState else existing }

/-- Embedding of the device-map construction of `_async_update_data`
(`coordinator.py` 71-112): the new map holds exactly the catalog's thing
ids, each with its carried-over or default state. -/
def refreshDevices (things : List Thing) (prior : Option DevMap) : DevMap :=
  (devIndex things).map fun pr => (pr.1, refreshEntry prior pr.1 pr.2)

/-! ## Dictionary lemmas -/

theorem dGet_dSet_self {α : Type} (k : String) (v : α) (l : List (String × α)) :
    dGet k (dSet k v l) = some v := by
  induction l with
  | nil => simp [dGet, dSet]
  | cons hd tl ih =>
      obtain ⟨k0, v0⟩ := hd
      by_cases h : k0 = k <;> simp [dGet, dSet, h, ih]

theorem dGet_dSet_ne {α : Type} {k2 k : String} (h : k2 ≠ k) (v : α)
    (l : List (String × α)) : dGet k (dSet k2 v l) = dGet k l := by
  induction l with
  | nil => simp [dGet, dSet, h]
  | cons hd tl ih =>
      obtain ⟨k0, v0⟩ := hd
      by_cases h0 : k0 = k2
      · subst h0
        simp [dGet, dSet, h]
      · by_cases h1 : k0 = k
        · subst h1
          simp [dGet, dSet, h0]
        · simp [dGet, dSet, h0, h1, ih]

theorem dSet_keys_of_mem {α : Type} {k : String} {l : List (String × α)} {w : α}
    (hmem : dGet k l = some w) (v : α) :
    (dSet k v l).map Prod.fst = l.map Prod.fst := by
  induction l with
  | nil => simp [dGet] at hmem
  | cons hd tl ih =>
      obtain ⟨k0, v0⟩ := hd
      by_cases h : k0 = k
      · subst h
        simp [dSet]
      · rw [dGet, if_neg h] at hmem
        simp [dSet, h, ih hmem]

theorem dSet_keys_subset {α : Type} (k : String) (v : α) (l : List (String × α)) :
    (dSet k v l).map Prod.fst ⊆ l.map Prod.fst ++ [k] := by
  induction l with
  | nil => simp [dSet]
  | cons hd tl ih =>
      obtain ⟨k0, v0⟩ := hd
      intro x hx
      rw [List.map_cons]
      by_cases h : k0 = k
      · subst h
        rw [dSet, if_pos rfl, List.map_cons] at hx
        rcases List.mem_cons.1 hx with h1 | h1
        · exact List.mem_append.2 (Or.inl (List.mem_cons.2 (Or.inl h1)))
        · exact List.mem_append.2 (Or.inl (List.mem_cons.2 (Or.inr h1)))
      · rw [dSet, if_neg h, List.map_cons] at hx
        rcases List.mem_cons.1 hx with h1 | h1
        · exact List.mem_append.2 (Or.inl (List.mem_cons.2 (Or.inl h1)))
        · rcases List.mem_append.1 (ih h1) with h3 | h3
          · exact List.mem_append.2 (Or.inl (List.mem_cons.2 (Or.inr h3)))
          · exact List.mem_append.2 (Or.inr h3)

/-! ## Credential extraction theorems (claims C3 and C4) -/

/-- C3: for a login response whose `mi` field is the base64 encoding of
`"endpoint::AKIA123::secret456::tok789"` and whose `session` field is
`"S1"`, credential extraction returns the endpoint, access key, secret key
and session token assigned positionally from the `::`-separated segments,
with the session id taken from the top-level `session` field. -/
theorem extract_credentials_roundtrip :
    extract_credentials
      { mi := some (b64encode "endpoint::AKIA123::secret456::tok789"),
        session := some "S1", userId := none } =
    .ok { endpoint := "endpoint", access_key := "AKIA123",
          secret_key := "secret456", session_id := some "S1",
          session_token := some "tok789", user_id := none,
          raw := b64encode "endpoint::AKIA123::secret456::tok789" } := by
  decide

/-- C4: credential extraction fails exactly when the `mi` field is absent,
is not valid base64, or decodes to fewer than 3 delimiter-separated
segments; in particular the 2-segment value `"onlytwo:segments"` fails. -/
theorem extract_credentials_failure_iff :
    (∀ r : LoginResponse,
      (∃ e, extract_credentials r = .error e) ↔ specMalformed r) ∧
    (∃ e, extract_credentials
        { mi := some (b64encode "onlytwo:segments"),
          session := some "S1", userId := none } = .error e) := by
  constructor
  · intro r
    constructor
    · intro ⟨e, he⟩
      unfold specMalformed
      cases hmi : r.mi with
      | none => exact Or.inl rfl
      | some mi =>
          simp only [extract_credentials, hmi] at he
          refine Or.inr ⟨mi, rfl, ?_⟩
          by_cases hemp : mi = ""
          · subst hemp
            exact Or.inr ⟨"", by decide, by decide⟩
          · rw [if_neg hemp] at he
            cases hdec : b64decodeAscii mi with
            | none => exact Or.inl rfl
            | some decoded =>
                refine Or.inr ⟨decoded, rfl, ?_⟩
                rw [hdec] at he
                simp only at he
                rcases hp : (if containsSubstr decoded "::" then
                    pySplit decoded "::" else pySplit decoded ":") with
                  _ | ⟨p0, _ | ⟨p1, _ | ⟨p2, rest⟩⟩⟩ <;> rw [hp] at he
                · simp
                · simp
                · simp
                · exact absurd he (by simp)
    · intro hm
      unfold specMalformed at hm
      rcases hm with hmi | ⟨mi, hmi, hrest⟩
      · refine ⟨"No mi field in login response", ?_⟩
        simp only [extract_credentials, hmi]
      · by_cases hemp : mi = ""
        · refine ⟨"No mi field in login response", ?_⟩
          simp only [extract_credentials, hmi, if_pos hemp]
        · rcases hrest with hdec | ⟨decoded, hdec, hlen⟩
          · refine ⟨"Failed to extract credentials: invalid base64", ?_⟩
            simp only [extract_credentials, hmi, if_neg hemp, hdec]
          · refine ⟨"Invalid credential format. Expected at least 3 parts", ?_⟩
            simp only [extract_credentials, hmi, if_neg hemp, hdec]
            rcases hp : (if containsSubstr decoded "::" then
                pySplit decoded "::" else pySplit decoded ":") with
              _ | ⟨p0, ptl⟩
            · simp only [hp]
            · rcases ptl with _ | ⟨p1, ptl2⟩
              · simp only [hp]
              · rcases ptl2 with _ | ⟨p2, rest⟩
                · simp only [hp]
                · rw [hp] at hlen
                  exact absurd hlen (by simp only [List.length_cons]; omega)
  · exact ⟨"Invalid credential format. Expected at least 3 parts", by decide⟩

/-- Witness for C4 at a concrete input: a response with no `mi` field is
malformed, via the forward direction of the equivalence. -/
theorem extract_credentials_failure_iff_witness :
    specMalformed { mi := none, session := none, userId := none } :=
  (extract_credentials_failure_iff.1 { mi := none, session := none, userId := none }).1
    ⟨"No mi field in login response", by decide⟩

/-! ## Login retry theorems (claims C5 and C6) -/

theorem initialize_mqtt_client_never_raises (env : BrokerEnv) (data : LoginResponse) :
    ∃ b, initialize_mqtt_client env data = .ok b := by
  unfold initialize_mqtt_client
  split
  · exact ⟨false, rfl⟩
  · cases extract_credentials data
    · exact ⟨false, rfl⟩
    · exact ⟨env.connectOk, rfl⟩

theorem loginFrom_policy (env : BrokerEnv) (o : Nat → AttemptOutcome) :
    ∀ fuel attempt, attempt + fuel = maxRetries → 1 ≤ fuel →
      1 ≤ (loginFrom env o attempt fuel).attempts ∧
      (loginFrom env o attempt fuel).attempts ≤ fuel ∧
      (loginFrom env o attempt fuel).sleeps =
        (List.range ((loginFrom env o attempt fuel).attempts - 1)).map
          (fun k => 2 ^ (attempt + k)) ∧
      (∀ k, k + 1 < (loginFrom env o attempt fuel).attempts →
        retryable (o (attempt + k))) := by
  intro fuel
  induction fuel with
  | zero => intro attempt hsum hpos; omega
  | succ fuel ih =>
      intro attempt hsum _hpos
      cases ho : o attempt with
      | response status jsonValid data =>
          by_cases h200 : status = 200
          · subst h200
            cases hjson : jsonValid
            · simp [loginFrom, ho, hjson] <;> omega
            · rcases initialize_mqtt_client_never_raises env data with ⟨b, hb⟩
              simp [loginFrom, ho, hjson, hb] <;> omega
          · by_cases h403 : status = 403
            · subst h403
              simp [loginFrom, ho] <;> omega
            · by_cases h401 : status = 401
              · subst h401
                simp [loginFrom, ho] <;> omega
              · by_cases h502 : status = 502
                · subst h502
                  by_cases hlast : attempt < maxRetries - 1
                  · have hfuel1 : 1 ≤ fuel := by
                      unfold maxRetries at hsum hlast; omega
                    have hrec := ih (attempt + 1) (by omega) hfuel1
                    have heq : loginFrom env o attempt (fuel + 1) =
                        { loginFrom env o (attempt + 1) fuel with
                            sleeps := 2 ^ attempt ::
                              (loginFrom env o (attempt + 1) fuel).sleeps,
                            attempts :=
                              (loginFrom env o (attempt + 1) fuel).attempts + 1 } := by
                      simp [loginFrom, ho, hlast]
                    set r := loginFrom env o (attempt + 1) fuel with hr
                    obtain ⟨h1, h2, h3, h4⟩ := hrec
                    have hA : (loginFrom env o attempt (fuel + 1)).attempts =
                        r.attempts + 1 := by rw [heq]
                    have hS : (loginFrom env o attempt (fuel + 1)).sleeps =
                        2 ^ attempt :: r.sleeps := by rw [heq]
                    refine ⟨by omega, by omega, ?_, ?_⟩
                    · rw [hS, hA]
                      obtain ⟨m, hm⟩ : ∃ m, r.attempts = m + 1 :=
                        ⟨r.attempts - 1, by omega⟩
                      have harg : (fun k => (2 : Nat) ^ (attempt + 1 + k)) =
                          ((fun k => (2 : Nat) ^ (attempt + k)) ∘ Nat.succ) := by
                        funext k
                        simp only [Function.comp]
                        congr 1
                        omega
                      rw [h3, hm]
                      simp only [Nat.add_sub_cancel, List.range_succ_eq_map,
                        List.map_cons, List.map_map, Nat.sub_self]
                      rw [harg]
                      simp
                    · intro k hk
                      rw [hA] at hk
                      cases k with
                      | zero => rw [Nat.add_zero, ho]; exact rfl
                      | succ k2 =>
                          have h5 := h4 k2 (by omega)
                          have h6 : attempt + (k2 + 1) = attempt + 1 + k2 := by omega
                          rw [h6]
                          exact h5
                  · simp [loginFrom, ho, hlast] <;> omega
                · simp [loginFrom, ho, h200, h403, h401, h502] <;> omega
      | netError =>
          by_cases hlast : attempt < maxRetries - 1
          · have hfuel1 : 1 ≤ fuel := by
              unfold maxRetries at hsum hlast; omega
            have hrec := ih (attempt + 1) (by omega) hfuel1
            have heq : loginFrom env o attempt (fuel + 1) =
                { loginFrom env o (attempt + 1) fuel with
                    sleeps := 2 ^ attempt ::
                      (loginFrom env o (attempt + 1) fuel).sleeps,
                    attempts :=
                      (loginFrom env o (attempt + 1) fuel).attempts + 1 } := by
              simp [loginFrom, ho, hlast]
            set r := loginFrom env o (attempt + 1) fuel with hr
            obtain ⟨h1, h2, h3, h4⟩ := hrec
            have hA : (loginFrom env o attempt (fuel + 1)).attempts =
                r.attempts + 1 := by rw [heq]
            have hS : (loginFrom env o attempt (fuel + 1)).sleeps =
                2 ^ attempt :: r.sleeps := by rw [heq]
            refine ⟨by omega, by omega, ?_, ?_⟩
            · rw [hS, hA]
              obtain ⟨m, hm⟩ : ∃ m, r.attempts = m + 1 :=
                ⟨r.attempts - 1, by omega⟩
              have harg : (fun k => (2 : Nat) ^ (attempt + 1 + k)) =
                  ((fun k => (2 : Nat) ^ (attempt + k)) ∘ Nat.succ) := by
                funext k
                simp only [Function.comp]
                congr 1
                omega
              rw [h3, hm]
              simp only [Nat.add_sub_cancel, List.range_succ_eq_map,
                List.map_cons, List.map_map, Nat.sub_self]
              rw [harg]
              simp
            · intro k hk
              rw [hA] at hk
              cases k with
              | zero => rw [Nat.add_zero, ho]; exact trivial
              | succ k2 =>
                  have h5 := h4 k2 (by omega)
                  have h6 : attempt + (k2 + 1) = attempt + 1 + k2 := by omega
                  rw [h6]
                  exact h5
          · simp [loginFrom, ho, hlast] <;> omega

theorem loginFrom_outcome_env (env env2 : BrokerEnv) (o : Nat → AttemptOutcome) :
    ∀ fuel attempt,
      (loginFrom env o attempt fuel).outcome =
        (loginFrom env2 o attempt fuel).outcome := by
  intro fuel
  induction fuel with
  | zero => intro attempt; rfl
  | succ fuel ih =>
      intro attempt
      cases ho : o attempt with
      | response status jsonValid data =>
          rcases initialize_mqtt_client_never_raises env data with ⟨b, hb⟩
          rcases initialize_mqtt_client_never_raises env2 data with ⟨b2, hb2⟩
          by_cases h200 : status = 200
          · subst h200
            cases jsonValid
            · simp [loginFrom, ho]
            · simp [loginFrom, ho, hb, hb2]
          · by_cases h403 : status = 403
            · subst h403
              simp [loginFrom, ho]
            · by_cases h401 : status = 401
              · subst h401
                simp [loginFrom, ho]
              · by_cases h502 : status = 502
                · subst h502
                  by_cases hlast : attempt < maxRetries - 1
                  · have hih := ih (attempt + 1)
                    simp only [loginFrom, ho]
                    rw [if_neg (by omega), if_neg (by omega), if_neg (by omega),
                      if_pos hlast, if_pos hlast]
                    simpa using hih
                  · simp [loginFrom, ho, hlast]
                · simp [loginFrom, ho, h200, h403, h401, h502]
      | netError =>
          by_cases hlast : attempt < maxRetries - 1
          · have hih := ih (attempt + 1)
            simp only [loginFrom, ho, if_pos hlast, if_pos hlast]
            simpa using hih
          · simp [loginFrom, ho, hlast]

/-- C5: the login POST is retried up to 3 attempts; the wait before retry
`k+1` is `2 ** k` seconds (1 s, then 2 s); a retry happens only when the
previous attempt hit an upstream 502 or a network-transport error; a 401 or
403 fails immediately, with one attempt, no backoff wait, and an error
carrying that status. -/
theorem login_retry_backoff_policy (env : BrokerEnv) (o : Nat → AttemptOutcome) :
    (login env o).attempts ≤ 3 ∧
    (login env o).sleeps =
      (List.range ((login env o).attempts - 1)).map (fun k => 2 ^ k) ∧
    (∀ k, k + 1 < (login env o).attempts → retryable (o k)) ∧
    (∀ s j d, o 0 = .response s j d → s = 401 ∨ s = 403 →
      (login env o).attempts = 1 ∧ (login env o).sleeps = [] ∧
      ∃ e, (login env o).outcome = .error e ∧ e.status_code = some s) := by
  have hp := loginFrom_policy env o maxRetries 0 (by rfl) (by decide)
  obtain ⟨hp1, hp2, hp3, hp4⟩ := hp
  have hzero : (fun k => (2 : Nat) ^ (0 + k)) = fun k => (2 : Nat) ^ k := by
    funext k
    rw [Nat.zero_add]
  refine ⟨hp2, ?_, ?_, ?_⟩
  · show (loginFrom env o 0 maxRetries).sleeps = _
    rw [hp3, hzero]
    rfl
  · intro k hk
    have := hp4 k hk
    rwa [Nat.zero_add] at this
  · intro s j d h0 hs
    rcases hs with h | h
    · subst h
      refine ⟨?_, ?_, ⟨⟨"Invalid credentials", some 401⟩, ?_, rfl⟩⟩ <;>
        simp [login, loginFrom, maxRetries, h0]
    · subst h
      refine ⟨?_, ?_,
        ⟨⟨"Access forbidden - Account may be locked", some 403⟩, ?_, rfl⟩⟩ <;>
        simp [login, loginFrom, maxRetries, h0]

/-- Witness for C5: on an all-502 trace the first retry reason is an
upstream 502, and a first-attempt 401 makes login stop after one attempt. -/
theorem login_retry_backoff_policy_witness :
    retryable ((fun _ => AttemptOutcome.response 502 true
        { mi := none, session := none, userId := none }) 0) ∧
    (login ⟨true, true⟩ (fun _ => AttemptOutcome.response 401 true
        { mi := none, session := none, userId := none })).attempts = 1 := by
  constructor
  · exact (login_retry_backoff_policy ⟨true, true⟩
      (fun _ => AttemptOutcome.response 502 true
        { mi := none, session := none, userId := none })).2.2.1 0 (by decide)
  · exact ((login_retry_backoff_policy ⟨true, true⟩
      (fun _ => AttemptOutcome.response 401 true
        { mi := none, session := none, userId := none })).2.2.2 401 true
      { mi := none, session := none, userId := none } rfl (Or.inl rfl)).1

/-- C6: a successful REST login (HTTP 200 with valid JSON) returns success
regardless of the broker side: `_initialize_mqtt_client` never raises (it
reports `False` when MQTT support is missing, credential extraction fails,
or the connect attempt fails), so the login outcome is the same under every
broker environment, and a 200 response yields success even when nothing on
the broker side works. -/
theorem login_success_independent_of_broker :
    (∀ env data, ∃ b, initialize_mqtt_client env data = .ok b) ∧
    (∀ env env2 o, (login env o).outcome = (login env2 o).outcome) ∧
    (login ⟨false, false⟩ (fun _ => AttemptOutcome.response 200 true
        { mi := none, session := some "S1", userId := none })).outcome =
      .ok { mi := none, session := some "S1", userId := none } := by
  refine ⟨initialize_mqtt_client_never_raises, ?_, by decide⟩
  intro env env2 o
  exact loginFrom_outcome_env env env2 o maxRetries 0

/-! ## MQTT reconnect and subscribe theorems (claims C1 and C2) -/

theorem subscribeCore_clientInit (sa : String → Bool) (id : String)
    (st : MqttState) : (subscribeCore sa id st).1.clientInit = st.clientInit := by
  unfold subscribeCore
  split
  · rfl
  · split <;> rfl

theorem subscribeCore_topics (sa : String → Bool) (id : String) (st : MqttState)
    (h : st.clientInit = true) :
    (subscribeCore sa id st).2.2 = [topicFmt SUB_STATE_REPORTED_TOPIC_NAME id] := by
  unfold subscribeCore
  rw [h, if_neg (by simp)]
  split <;> rfl

theorem subscribeCore_mem (sa : String → Bool) (id : String) (st : MqttState)
    (hcl : st.clientInit = true) (ha : sa id = true) :
    id ∈ (subscribeCore sa id st).1.subscribed_devices := by
  unfold subscribeCore
  rw [hcl, if_neg (by simp), if_pos ha]
  unfold addId
  split
  · assumption
  · simp

theorem resubscribeFold_wireSubs (sa : String → Bool) :
    ∀ (l : List String) (st : MqttState) (acc : List String),
      st.clientInit = true →
      (l.foldl (fun a id =>
          let r := subscribeCore sa id a.1
          (r.1, a.2 ++ r.2.2)) (st, acc)).2 =
        acc ++ l.map (topicFmt SUB_STATE_REPORTED_TOPIC_NAME) := by
  intro l
  induction l with
  | nil => intro st acc _h; simp
  | cons id rest ih =>
      intro st acc h
      simp only [List.foldl_cons, List.map_cons]
      rw [ih (subscribeCore sa id st).1 (acc ++ (subscribeCore sa id st).2.2)
        (by rw [subscribeCore_clientInit, h])]
      rw [subscribeCore_topics sa id st h]
      simp

theorem resubscribeAll_wireSubs (sa : String → Bool) (st : MqttState)
    (h : st.clientInit = true) :
    (resubscribeAll sa st).2 =
      st.subscribed_devices.map (topicFmt SUB_STATE_REPORTED_TOPIC_NAME) := by
  unfold resubscribeAll
  rw [resubscribeFold_wireSubs sa st.subscribed_devices st [] h]
  simp

theorem reconnect_backoffWaits_nil (st : MqttState) (hk : Bool)
    (sa : String → Bool) : (reconnect st hk sa).backoffWaits = [] := by
  unfold reconnect connectAttempt
  split
  · rfl
  · cases hk <;> simp

theorem reconnect_success_wireSubs (st : MqttState) (sa : String → Bool)
    (hrec : st.reconnecting = false) :
    (reconnect st true sa).success = true ∧
    (reconnect st true sa).wireSubs =
      st.subscribed_devices.map (topicFmt SUB_STATE_REPORTED_TOPIC_NAME) := by
  unfold reconnect connectAttempt
  rw [hrec]
  simp only [Bool.false_eq_true, if_false]
  constructor
  · rfl
  · show (resubscribeAll sa
      { st with reconnecting := true, clientInit := true, is_connected := true }).2 = _
    rw [resubscribeAll_wireSubs sa _ rfl]

/-- C1 counterexample: after 1 consecutive failed connect attempt the
reconnect logic waits 0 seconds before attempt 2, not
`min(30, 2**1) = 2` — `_reconnect` executes no backoff sleep at all. -/
theorem reconnect_backoff_claim_false :
    (reconnectRun (fun _ => true) initialMqttState [false, false]).2 = [[], []] ∧
    ((reconnectRun (fun _ => true) initialMqttState [false, false]).2[1]!).sum = 0 ∧
    ¬ ((reconnectRun (fun _ => true) initialMqttState
        [false, false]).2[1]!).sum = specBackoffWait 1 := by
  refine ⟨by decide, by decide, ?_⟩
  intro h
  exact absurd h (by decide)

/-- C1 as amended: before every reconnect attempt, whatever the number of
preceding consecutive failures, the backoff wait executed by `_reconnect`
is zero (the source keeps no consecutive-failure counter and sleeps no
backoff delay), and a successful reconnect resubscribes to every previously
subscribed device id. -/
theorem reconnect_immediate_no_backoff (st : MqttState) (outcomes : List Bool)
    (sa : String → Bool) :
    (∀ w ∈ (reconnectRun sa st outcomes).2, w = []) ∧
    (st.reconnecting = false →
      (reconnect st true sa).success = true ∧
      (reconnect st true sa).wireSubs =
        st.subscribed_devices.map (topicFmt SUB_STATE_REPORTED_TOPIC_NAME)) := by
  constructor
  · induction outcomes generalizing st with
    | nil => intro w hw; simp [reconnectRun] at hw
    | cons ok rest ih =>
        intro w hw
        simp only [reconnectRun] at hw
        rcases List.mem_cons.1 hw with h | h
        · rw [h]
          exact reconnect_backoffWaits_nil st ok sa
        · exact ih (reconnect st ok sa).st w h
  · intro hrec
    exact reconnect_success_wireSubs st sa hrec

/-- Witness for C1 (amended): a concrete two-failure run has only empty
backoff-wait lists, and from a clean disconnected state a successful
reconnect resubscribes the one previously subscribed device. -/
theorem reconnect_immediate_no_backoff_witness :
    (([] : List Nat) ∈ (reconnectRun (fun _ => true) initialMqttState
        [false, false]).2 → ([] : List Nat) = []) ∧
    ((reconnect
        { is_connected := false, reconnecting := false, clientInit := true,
          subscribed_devices := ["d1"] } true
        (fun _ => true)).wireSubs = ["things/d1/state/reported"]) := by
  constructor
  · intro h
    exact (reconnect_immediate_no_backoff initialMqttState [false, false]
      (fun _ => true)).1 [] h
  · have h2 := ((reconnect_immediate_no_backoff
      { is_connected := false, reconnecting := false, clientInit := true,
        subscribed_devices := ["d1"] } [] (fun _ => true)).2 rfl).2
    rw [h2]
    decide

theorem subscribe_connected_eq_core (st : MqttState) (hk : Bool)
    (sa : String → Bool) (id : String) (h : st.is_connected = true) :
    subscribe_to_device st hk sa id = subscribeCore sa id st := by
  unfold subscribe_to_device ensure_connected
  rw [h]
  simp

/-- C2 counterexample: with a connected client and a successful ack, a
`subscribe_to_device` call passes exactly one topic filter to
`client.subscribe` — the state-report topic — not the two topic patterns
(state-report and shadow-get-accepted) the claim asserts. -/
theorem subscribe_two_topics_claim_false :
    (subscribe_to_device
        { is_connected := true, reconnecting := false, clientInit := true,
          subscribed_devices := [] } true (fun _ => true) "d1").2.2 =
      ["things/d1/state/reported"] ∧
    ¬ (subscribe_to_device
        { is_connected := true, reconnecting := false, clientInit := true,
          subscribed_devices := [] } true (fun _ => true) "d1").2.2.length = 2 := by
  exact ⟨by decide, by decide⟩

/-- C2 as amended: a successful `subscribe_to_device` call subscribes the
connection to exactly one topic pattern for the device — the state-report
topic `things/<id>/state/reported` — and records the device id in the
subscribed-ids set used for resubscription after reconnect. -/
theorem subscribe_single_topic_tracks_id (st : MqttState) (hk : Bool)
    (sa : String → Bool) (id : String) (hc : st.is_connected = true)
    (hcl : st.clientInit = true) (ha : sa id = true) :
    (subscribe_to_device st hk sa id).2.1 = true ∧
    (subscribe_to_device st hk sa id).2.2 =
      [topicFmt SUB_STATE_REPORTED_TOPIC_NAME id] ∧
    id ∈ (subscribe_to_device st hk sa id).1.subscribed_devices := by
  rw [subscribe_connected_eq_core st hk sa id hc]
  refine ⟨?_, subscribeCore_topics sa id st hcl, subscribeCore_mem sa id st hcl ha⟩
  unfold subscribeCore
  rw [hcl, if_neg (by simp), if_pos ha]

/-- Witness for C2 (amended): concrete successful subscription to device
`"d1"` from a connected state. -/
theorem subscribe_single_topic_tracks_id_witness :
    (subscribe_to_device
        { is_connected := true, reconnecting := false, clientInit := true,
          subscribed_devices := [] } true (fun _ => true) "d1").2.1 = true ∧
    "d1" ∈ (subscribe_to_device
        { is_connected := true, reconnecting := false, clientInit := true,
          subscribed_devices := [] } true (fun _ => true) "d1").1.subscribed_devices := by
  have h := subscribe_single_topic_tracks_id
    { is_connected := true, reconnecting := false, clientInit := true,
      subscribed_devices := [] } true (fun _ => true) "d1" rfl rfl rfl
  exact ⟨h.1, h.2.2⟩

/-! ## Publish wire-normalization theorems (claim C7) -/

theorem publishStamp_src_ts (fp : Dict) (now : Int) :
    dGet SRC_KEY (publishStamp fp now) = some (.pstr SRC_VALUE) ∧
    (dGet "ts" (publishStamp fp now)).isSome = true := by
  unfold publishStamp
  by_cases h : dMem "ts" (dSet SRC_KEY (.pstr SRC_VALUE) fp) = true
  · rw [if_neg (by simp [h])]
    refine ⟨dGet_dSet_self SRC_KEY (.pstr SRC_VALUE) fp, ?_⟩
    unfold dMem at h
    exact h
  · rw [if_pos (by simp [h])]
    constructor
    · rw [dGet_dSet_ne (by decide) (PyVal.pint now)]
      exact dGet_dSet_self SRC_KEY (.pstr SRC_VALUE) fp
    · rw [dGet_dSet_self "ts" (PyVal.pint now)]
      rfl

/-- C7: wire normalization of `publish`.  An input `{mode: 0}` with no
companion fields yields a payload whose `mode` is exactly the object
`{"value": 0}` (no `fspd` or `stemp` keys); `{mode: 2, stemp: 23.5}`
without `fspd` yields a mode object with the one-decimal-place `stemp`
string and no `fspd` key; every normalized payload carries the fixed `src`
marker and a `ts` field; the published message wraps the payload in the
state/desired envelope on the shadow-update topic. -/
theorem publish_wire_normalization :
    (∀ now : Int, publishFormat [("mode", .pint 0)] now =
      some [("mode", .pdict [("value", .int 0)]),
            ("src", .pstr "anmq"), ("ts", .pint now)]) ∧
    (∀ now : Int, publishFormat [("mode", .pint 2), ("stemp", .pfloat 235)] now =
      some [("mode", .pdict [("value", .int 2), ("stemp", .str "23.5")]),
            ("src", .pstr "anmq"), ("ts", .pint now)]) ∧
    (∀ (cp : Dict) (now : Int) (fp : Dict), publishFormat cp now = some fp →
      dGet SRC_KEY fp = some (.pstr SRC_VALUE) ∧
      (dGet "ts" fp).isSome = true) ∧
    (∀ (id : String) (cp : Dict) (now : Int),
      publishMessage id cp now = (publishFormat cp now).map fun fp =>
        { topic := topicFmt PUB_STATE_UPDATE_TOPIC_NAME id, desired := fp }) ∧
    topicFmt PUB_STATE_UPDATE_TOPIC_NAME "d1" = "$aws/things/d1/shadow/update" := by
  refine ⟨fun now => rfl, fun now => rfl, ?_, fun id cp now => rfl, by decide⟩
  intro cp now fp h
  unfold publishFormat at h
  cases hb : publishBase cp with
  | none => rw [hb] at h; exact Option.noConfusion h
  | some fb =>
      rw [hb] at h
      have h2 : publishStamp fb now = fp :=
        Option.some.inj h
      rw [← h2]
      exact publishStamp_src_ts fb now

/-- Witness for C7's universally quantified src/ts part, at the concrete
payload `{pow: 1}` and timestamp 5. -/
theorem publish_wire_normalization_witness :
    dGet SRC_KEY [("pow", PyVal.pint 1), ("src", PyVal.pstr "anmq"),
        ("ts", PyVal.pint 5)] = some (.pstr SRC_VALUE) ∧
    (dGet "ts" [("pow", PyVal.pint 1), ("src", PyVal.pstr "anmq"),
        ("ts", PyVal.pint 5)]).isSome = true :=
  publish_wire_normalization.2.2.1 [("pow", PyVal.pint 1)] 5
    [("pow", PyVal.pint 1), ("src", PyVal.pstr "anmq"), ("ts", PyVal.pint 5)]
    (by decide)

/-! ## Coordinator state-cache theorems (claims C8, C9 and C10) -/

/-- C8: from a cached state with `power = false` and `mode = 2` (the
defaults), a successful `control_device` with
`\x7bpow: 1, mode: \x7bvalue: 2, fspd: 7, stemp: "24.0"\x7d\x7d` immediately — with
no inbound broker message involved — updates the cache to power on, mode 2,
fan speed 7, target temperature `"24.0"`, and notifies the listeners. -/
theorem optimistic_merge_example :
    dGet "power" defaultState = some (.pbool false) ∧
    dGet "mode" defaultState = some (.pint 2) ∧
    control_device (some [("d1", { name := "AC", state := defaultState })]) "d1"
        [("pow", .pint 1),
         ("mode", .pdict [("value", .int 2), ("fspd", .int 7),
           ("stemp", .str "24.0")])] true =
      .ok (some [("d1", { name := "AC", state := optimisticMergedState })], true) ∧
    dGet "power" optimisticMergedState = some (.pbool true) ∧
    dGet "mode" optimisticMergedState = some (.pint 2) ∧
    dGet "fan_speed" optimisticMergedState = some (.pint 7) ∧
    dGet "temperature" optimisticMergedState = some (.pstr "24.0") := by
  decide

theorem updIf_get_ne {p : Dict} {srcKey dstKey k : String} {tr : PyVal → PyVal}
    {st : Dict} (hne : dstKey ≠ k) :
    dGet k (updIf p srcKey dstKey tr st) = dGet k st := by
  unfold updIf
  cases dGet srcKey p
  · rfl
  · exact dGet_dSet_ne hne _ st

theorem updIf_absent {p : Dict} {srcKey dstKey : String} {tr : PyVal → PyVal}
    {st : Dict} (h : dGet srcKey p = none) :
    updIf p srcKey dstKey tr st = st := by
  unfold updIf
  rw [h]

/-- C9: the inbound merge is sparse.  `connected` is unconditionally set to
true; every state field whose wire key is absent from the inbound payload
keeps its prior value; and concretely, an inbound `\x7bstemp: "22.0"\x7d` against
a cache with `fan_speed = 7` changes `temperature` to `"22.0"` while leaving
`fan_speed` at 7. -/
theorem inbound_merge_sparse (st p : Dict) :
    dGet "connected" (handle_state_merge st p) = some (.pbool true) ∧
    (dGet "pow" p = none →
      dGet "power" (handle_state_merge st p) = dGet "power" st) ∧
    (dGet "mode" p = none →
      dGet "mode" (handle_state_merge st p) = dGet "mode" st) ∧
    (dGet "stemp" p = none →
      dGet "temperature" (handle_state_merge st p) = dGet "temperature" st) ∧
    (dGet "ctemp" p = none →
      dGet "current_temp" (handle_state_merge st p) = dGet "current_temp" st) ∧
    (dGet "fspd" p = none →
      dGet "fan_speed" (handle_state_merge st p) = dGet "fan_speed" st) ∧
    (dGet "vswing" p = none →
      dGet "vertical_swing" (handle_state_merge st p) = dGet "vertical_swing" st) ∧
    (dGet "hswing" p = none →
      dGet "horizontal_swing" (handle_state_merge st p) = dGet "horizontal_swing" st) ∧
    (dGet "display" p = none →
      dGet "display" (handle_state_merge st p) = dGet "display" st) ∧
    (dGet "esave" p = none →
      dGet "esave" (handle_state_merge st p) = dGet "esave" st) ∧
    (dGet "turbo" p = none →
      dGet "turbo" (handle_state_merge st p) = dGet "turbo" st) ∧
    (dGet "sleep" p = none →
      dGet "sleep" (handle_state_merge st p) = dGet "sleep" st) ∧
    (dGet "rssi" p = none →
      dGet "rssi" (handle_state_merge st p) = dGet "rssi" st) ∧
    (dGet "err" p = none →
      dGet "error" (handle_state_merge st p) = dGet "error" st) ∧
    (dGet "src" p = none →
      dGet "source" (handle_state_merge st p) = dGet "source" st) ∧
    (dGet "ts" p = none →
      dGet "timestamp" (handle_state_merge st p) = dGet "timestamp" st) ∧
    dGet "temperature" (handle_state_merge
      (dSet "fan_speed" (.pint 7) defaultState) [("stemp", .pstr "22.0")]) =
      some (.pstr "22.0") ∧
    dGet "fan_speed" (handle_state_merge
      (dSet "fan_speed" (.pint 7) defaultState) [("stemp", .pstr "22.0")]) =
      some (.pint 7) := by
  refine ⟨?_, ?_, ?_, ?_, ?_, ?_, ?_, ?_, ?_, ?_, ?_, ?_, ?_, ?_, ?_, ?_, by decide, by decide⟩
  · simp [handle_state_merge, dGet_dSet_self]
  · intro h
    simp only [handle_state_merge]
    simp [updIf_get_ne, updIf_absent, dGet_dSet_ne, h]
  · intro h
    simp only [handle_state_merge]
    simp [updIf_get_ne, updIf_absent, dGet_dSet_ne, h]
  · intro h
    simp only [handle_state_merge]
    simp [updIf_get_ne, updIf_absent, dGet_dSet_ne, h]
  · intro h
    simp only [handle_state_merge]
    simp [updIf_get_ne, updIf_absent, dGet_dSet_ne, h]
  · intro h
    simp only [handle_state_merge]
    simp [updIf_get_ne, updIf_absent, dGet_dSet_ne, h]
  · intro h
    simp only [handle_state_merge]
    simp [updIf_get_ne, updIf_absent, dGet_dSet_ne, h]
  · intro h
    simp only [handle_state_merge]
    simp [updIf_get_ne, updIf_absent, dGet_dSet_ne, h]
  · intro h
    simp only [handle_state_merge]
    simp [updIf_get_ne, updIf_absent, dGet_dSet_ne, h]
  · intro h
    simp only [handle_state_merge]
    simp [updIf_get_ne, updIf_absent, dGet_dSet_ne, h]
  · intro h
    simp only [handle_state_merge]
    simp [updIf_get_ne, updIf_absent, dGet_dSet_ne, h]
  · intro h
    simp only [handle_state_merge]
    simp [updIf_get_ne, updIf_absent, dGet_dSet_ne, h]
  · intro h
    simp only [handle_state_merge]
    simp [updIf_get_ne, updIf_absent, dGet_dSet_ne, h]
  · intro h
    simp only [handle_state_merge]
    simp [updIf_get_ne, updIf_absent, dGet_dSet_ne, h]
  · intro h
    simp only [handle_state_merge]
    simp [updIf_get_ne, updIf_absent, dGet_dSet_ne, h]
  · intro h
    simp only [handle_state_merge]
    simp [updIf_get_ne, updIf_absent, dGet_dSet_ne, h]

/-- Witness for C9's sparse-merge hypotheses at a concrete payload: an
inbound message without `pow` leaves `power` untouched, and one without
`fspd` leaves `fan_speed` untouched. -/
theorem inbound_merge_sparse_witness :
    dGet "power" (handle_state_merge defaultState [("stemp", .pstr "22.0")]) =
      dGet "power" defaultState ∧
    dGet "fan_speed" (handle_state_merge defaultState [("stemp", .pstr "22.0")]) =
      dGet "fan_speed" defaultState := by
  have h := inbound_merge_sparse defaultState [("stemp", .pstr "22.0")]
  exact ⟨h.2.1 (by decide), h.2.2.2.2.2.1 (by decide)⟩

theorem handle_mqtt_keys (m : DevMap) (id : String) (p : Dict) :
    (handle_mqtt_message (some m) id p).1.map (fun l => l.map Prod.fst) =
      some (m.map Prod.fst) := by
  unfold handle_mqtt_message
  cases hg : dGet id m with
  | none => simp [hg]
  | some entry => simp [hg, dSet_keys_of_mem hg]

theorem foldl_dSet_keys_subset :
    ∀ (things : List Thing) (acc : List (String × Thing)),
      ((things.foldl (fun a t => dSet t.thing_id t a) acc).map Prod.fst) ⊆
        acc.map Prod.fst ++ things.map Thing.thing_id := by
  intro things
  induction things with
  | nil => intro acc; simp
  | cons t rest ih =>
      intro acc x hx
      have h1 := ih (dSet t.thing_id t acc) hx
      rcases List.mem_append.1 h1 with h2 | h2
      · have h3 := dSet_keys_subset t.thing_id t acc h2
        rcases List.mem_append.1 h3 with h4 | h4
        · exact List.mem_append.2 (Or.inl h4)
        · apply List.mem_append.2
          right
          simp at h4
          simp [h4]
      · exact List.mem_append.2 (Or.inr (by simp [h2]))

theorem refresh_keys_subset (things : List Thing) (prior : Option DevMap) :
    (refreshDevices things prior).map Prod.fst ⊆ things.map Thing.thing_id := by
  unfold refreshDevices
  have hkeys :
      (((devIndex things).map fun pr =>
        (pr.1, refreshEntry prior pr.1 pr.2)).map Prod.fst) =
        (devIndex things).map Prod.fst := by
    rw [List.map_map]
    rfl
  rw [hkeys]
  unfold devIndex
  have h := foldl_dSet_keys_subset things []
  simpa using h

/-- C10: an inbound state message arriving before the first refresh, or for
a device id not in the current map, is dropped without creating or mutating
any cached entry and without notifying listeners; the merge never changes
the key set of the device map; and a catalog refresh produces a map whose
keys all come from the catalog's thing ids — so the state cache's key set
stays a subset of the catalog ids. -/
theorem inbound_drop_unknown_keyset :
    (∀ (id : String) (p : Dict), handle_mqtt_message none id p = (none, false)) ∧
    (∀ (m : DevMap) (id : String) (p : Dict),
      (handle_mqtt_message (some m) id p).1.map (fun l => l.map Prod.fst) =
        some (m.map Prod.fst)) ∧
    (∀ (m : DevMap) (id : String) (p : Dict), dGet id m = none →
      handle_mqtt_message (some m) id p = (some m, false)) ∧
    (∀ (things : List Thing) (prior : Option DevMap),
      (refreshDevices things prior).map Prod.fst ⊆ things.map Thing.thing_id) := by
  refine ⟨fun id p => rfl, handle_mqtt_keys, ?_, refresh_keys_subset⟩
  intro m id p h
  simp only [handle_mqtt_message]
  rw [h]

/-- Witness for C10's drop-unknown-device hypothesis at a concrete map: a
message for `"dX"` against a map holding only `"d1"` changes nothing and
fires no notification. -/
theorem inbound_drop_unknown_keyset_witness :
    handle_mqtt_message (some [("d1", { name := "AC", state := defaultState })])
      "dX" [("pow", PyVal.pint 1)] =
      (some [("d1", { name := "AC", state := defaultState })], false) :=
  inbound_drop_unknown_keyset.2.2.1
    [("d1", { name := "AC", state := defaultState })] "dX"
    [("pow", PyVal.pint 1)] (by decide)

end Bluestar
